import Mathlib

/-!
Verification development for the `langsmithgo` client library
(`contracts.go`, `dataset.go`).  The Go code is shallowly embedded:
pure functions become Lean functions, fallible code returns
`Except`/a dedicated outcome type, and the single HTTP round trip of
each public operation is modelled as an explicit effect trace.
-/

namespace Langsmithgo

/-- Models a Go `time.Time` wall-clock value in UTC: calendar fields plus
nanoseconds.  The Go location is modelled as UTC (the wire formats at issue
either carry no zone, or a literal `Z` for UTC). -/
structure GoTime where
  year : Nat
  month : Nat
  day : Nat
  hour : Nat
  minute : Nat
  second : Nat
  nanos : Nat
deriving DecidableEq, Repr

/-- The Go type `LangsmithTime` is a defined type over `time.Time`
(`type LangsmithTime time.Time`); the embedding reuses `GoTime`. -/
abbrev LangsmithTime := GoTime

/-- Leap-year rule used by Go `time.isLeap`. -/
def isLeap (y : Nat) : Bool :=
  y % 4 == 0 && (y % 100 != 0 || y % 400 == 0)

/-- Days in a month, as Go `time.daysIn`. -/
def daysIn (y m : Nat) : Nat :=
  if m = 2 then (if isLeap y then 29 else 28)
  else if m = 4 ∨ m = 6 ∨ m = 9 ∨ m = 11 then 30
  else 31

/-- A `GoTime` whose fields are those of a normalized Go `time.Time`
with a four-digit year. -/
def ValidGoTime (t : GoTime) : Prop :=
  t.year ≤ 9999 ∧ 1 ≤ t.month ∧ t.month ≤ 12 ∧ 1 ≤ t.day ∧
    t.day ≤ daysIn t.year t.month ∧ t.hour ≤ 23 ∧ t.minute ≤ 59 ∧
    t.second ≤ 59

instance (t : GoTime) : Decidable (ValidGoTime t) := by
  unfold ValidGoTime; infer_instance

/-- Truncation of a time to second precision (drops sub-second data). -/
def truncSec (t : GoTime) : GoTime := { t with nanos := 0 }

/-- The decimal digit character for `n` (`'0' + n` in Go). -/
def digitChar (n : Nat) : Char := Char.ofNat (48 + n)

/-- Fuelled decimal rendering of a natural number, least significant digit
last, as Go `appendInt` produces for non-negative values. -/
def natToCharsAux : Nat → Nat → List Char
  | 0, _ => []
  | fuel + 1, n =>
    if n < 10 then [digitChar n]
    else natToCharsAux fuel (n / 10) ++ [digitChar (n % 10)]

/-- Decimal rendering of a natural number. -/
def natToChars (n : Nat) : List Char := natToCharsAux (n + 1) n

/-- Zero-padded decimal rendering to width `w`, as Go `appendInt` with a
fixed width: pads with `'0'`, never truncates. -/
def padNum (w n : Nat) : List Char :=
  List.replicate (w - (natToChars n).length) '0' ++ natToChars n

/-- Character list of `Format("2006-01-02T15:04:05")` applied to a time:
the fixed LangSmith wire layout (`langsmithTimeFormat` in `contracts.go`). -/
def formatLangsmithChars (t : GoTime) : List Char :=
  padNum 4 t.year ++ '-' :: padNum 2 t.month ++ '-' :: padNum 2 t.day ++
    'T' :: padNum 2 t.hour ++ ':' :: padNum 2 t.minute ++
    ':' :: padNum 2 t.second

/-- `time.Time.Format(langsmithTimeFormat)` from `LangsmithTime.MarshalJSON`. -/
def formatLangsmith (t : GoTime) : String := String.mk (formatLangsmithChars t)

/-- `LangsmithTime.MarshalJSON`: wraps the formatted time in quotes
(`fmt.Sprintf("\"%s\"", ...)`); it never returns an error. -/
def langsmithMarshalJSON (t : GoTime) : String :=
  "\"" ++ formatLangsmith t ++ "\""

/-- Numeric value of a decimal digit character. -/
def digitVal (c : Char) : Nat := c.toNat - 48

/-- Whether a character is a decimal digit. -/
def isDigitChar (c : Char) : Bool := 48 ≤ c.toNat && c.toNat ≤ 57

/-- Go `time.Parse("2006-01-02T15:04:05", s)`: a fixed 19-character layout
(4-digit year, 2-digit fields, literal separators) followed by Go's range
validation of month, day (calendar-aware), hour, minute and second.
Error messages are abbreviated stand-ins for Go's `ParseError` renderings. -/
def parseLangsmith (s : String) : Except String GoTime :=
  match s.data with
  | [y3, y2, y1, y0, a1, m1, m0, a2, d1, d0, a3, h1, h0, a4, i1, i0, a5, e1, e0] =>
    if a1 = '-' ∧ a2 = '-' ∧ a3 = 'T' ∧ a4 = ':' ∧ a5 = ':' then
      if isDigitChar y3 && isDigitChar y2 && isDigitChar y1 && isDigitChar y0 &&
          isDigitChar m1 && isDigitChar m0 && isDigitChar d1 && isDigitChar d0 &&
          isDigitChar h1 && isDigitChar h0 && isDigitChar i1 && isDigitChar i0 &&
          isDigitChar e1 && isDigitChar e0 then
        let y := 1000 * digitVal y3 + 100 * digitVal y2 + 10 * digitVal y1 + digitVal y0
        let mo := 10 * digitVal m1 + digitVal m0
        let d := 10 * digitVal d1 + digitVal d0
        let h := 10 * digitVal h1 + digitVal h0
        let mi := 10 * digitVal i1 + digitVal i0
        let se := 10 * digitVal e1 + digitVal e0
        if 1 ≤ mo ∧ mo ≤ 12 ∧ 1 ≤ d ∧ d ≤ daysIn y mo ∧ h ≤ 23 ∧ mi ≤ 59 ∧ se ≤ 59 then
          .ok ⟨y, mo, d, h, mi, se, 0⟩
        else .error "parsing time: value out of range"
      else .error "parsing time: bad digit"
    else .error "parsing time: bad separator"
  | _ => .error "parsing time: bad length"

/-- Models `encoding/json` decoding of a JSON value into a Go `string`
(`json.Unmarshal(b, &s)`), restricted to escape-free string literals: the
input must be a quoted string whose interior holds no quote and no
backslash (all strings produced or consumed by the claims are of this
shape); anything else is rejected with an error, as Go rejects non-string
values and malformed literals. -/
def jsonDecodeString (b : String) : Except String String :=
  match b.data with
  | '"' :: rest =>
    if rest ≠ [] ∧ rest.getLast? = some '"' ∧
        rest.dropLast.all (fun c => c ≠ '"' && c ≠ '\\') then
      .ok (String.mk rest.dropLast)
    else .error "invalid string literal"
  | _ => .error "json: cannot unmarshal value into Go value of type string"

/-- Outcome of running `LangsmithTime.UnmarshalJSON`: a decoded time, a
returned error, or a runtime panic. -/
inductive UnmarshalOutcome where
  | ok (t : GoTime)
  | err (msg : String)
  | panicked (msg : String)
deriving DecidableEq, Repr

/-- `LangsmithTime.UnmarshalJSON`: JSON-decodes the input into a string,
then evaluates `s[:19]` — which panics when the decoded string is shorter
than 19 characters (Go slice bounds, modelled at character granularity) —
and parses the truncation with the fixed layout. -/
def unmarshalLangsmithTime (b : String) : UnmarshalOutcome :=
  match jsonDecodeString b with
  | .error e => .err e
  | .ok s =>
    if s.length < 19 then
      .panicked "runtime error: slice bounds out of range"
    else
      match parseLangsmith (String.mk (s.data.take 19)) with
      | .error e => .err e
      | .ok t => .ok t

lemma natToCharsAux_small (f n : Nat) (h10 : n < 10) (hf : 0 < f) :
    natToCharsAux f n = [digitChar n] := by
  cases f with
  | zero => omega
  | succ m => simp [natToCharsAux, h10]

lemma natToCharsAux_step (f n : Nat) (h10 : 10 ≤ n) (hf : 0 < f) :
    natToCharsAux f n = natToCharsAux (f - 1) (n / 10) ++ [digitChar (n % 10)] := by
  cases f with
  | zero => omega
  | succ m =>
    simp only [natToCharsAux, Nat.succ_sub_one]
    rw [if_neg (by omega)]

lemma natToCharsAux_irrel (n : Nat) : ∀ f₁ f₂, n < f₁ → n < f₂ →
    natToCharsAux f₁ n = natToCharsAux f₂ n := by
  induction n using Nat.strong_induction_on with
  | _ n ih =>
    intro f₁ f₂ h₁ h₂
    by_cases h10 : n < 10
    · rw [natToCharsAux_small f₁ n h10 (by omega),
        natToCharsAux_small f₂ n h10 (by omega)]
    · rw [natToCharsAux_step f₁ n (by omega) (by omega),
        natToCharsAux_step f₂ n (by omega) (by omega)]
      congr 1
      exact ih (n / 10) (by omega) _ _ (by omega) (by omega)

lemma natToChars_lt10 (n : Nat) (h : n < 10) : natToChars n = [digitChar n] :=
  natToCharsAux_small _ _ h (by omega)

lemma natToChars_step (n : Nat) (h : 10 ≤ n) :
    natToChars n = natToChars (n / 10) ++ [digitChar (n % 10)] := by
  unfold natToChars
  rw [natToCharsAux_step (n + 1) n h (by omega)]
  congr 1
  exact natToCharsAux_irrel (n / 10) (n + 1 - 1) (n / 10 + 1) (by omega) (by omega)

lemma natToChars_two (n : Nat) (h1 : 10 ≤ n) (h2 : n ≤ 99) :
    natToChars n = [digitChar (n / 10), digitChar (n % 10)] := by
  rw [natToChars_step n h1, natToChars_lt10 (n / 10) (by omega)]
  rfl

lemma natToChars_three (n : Nat) (h1 : 100 ≤ n) (h2 : n ≤ 999) :
    natToChars n =
      [digitChar (n / 100), digitChar (n / 10 % 10), digitChar (n % 10)] := by
  rw [natToChars_step n (by omega), natToChars_two (n / 10) (by omega) (by omega)]
  have e1 : n / 10 / 10 = n / 100 := by omega
  have e2 : n / 10 % 10 = n / 10 % 10 := rfl
  rw [e1]
  rfl

lemma natToChars_four (n : Nat) (h1 : 1000 ≤ n) (h2 : n ≤ 9999) :
    natToChars n =
      [digitChar (n / 1000), digitChar (n / 100 % 10),
        digitChar (n / 10 % 10), digitChar (n % 10)] := by
  rw [natToChars_step n (by omega), natToChars_three (n / 10) (by omega) (by omega)]
  have e1 : n / 10 / 100 = n / 1000 := by omega
  have e2 : n / 10 / 10 % 10 = n / 100 % 10 := by omega
  rw [e1, e2]
  rfl

lemma pad2_eq (n : Nat) (h : n ≤ 99) :
    padNum 2 n = [digitChar (n / 10), digitChar (n % 10)] := by
  by_cases h10 : n < 10
  · rw [padNum, natToChars_lt10 n h10]
    have e1 : n / 10 = 0 := by omega
    have e2 : n % 10 = n := by omega
    rw [e1, e2]
    rfl
  · rw [padNum, natToChars_two n (by omega) h]
    rfl

lemma pad4_eq (n : Nat) (h : n ≤ 9999) :
    padNum 4 n = [digitChar (n / 1000), digitChar (n / 100 % 10),
      digitChar (n / 10 % 10), digitChar (n % 10)] := by
  by_cases c1 : n < 10
  · rw [padNum, natToChars_lt10 n c1]
    have e1 : n / 1000 = 0 := by omega
    have e2 : n / 100 % 10 = 0 := by omega
    have e3 : n / 10 % 10 = 0 := by omega
    have e4 : n % 10 = n := by omega
    rw [e1, e2, e3, e4]
    rfl
  · by_cases c2 : n < 100
    · rw [padNum, natToChars_two n (by omega) (by omega)]
      have e1 : n / 1000 = 0 := by omega
      have e2 : n / 100 % 10 = 0 := by omega
      have e3 : n / 10 % 10 = n / 10 := by omega
      rw [e1, e2, e3]
      rfl
    · by_cases c3 : n < 1000
      · rw [padNum, natToChars_three n (by omega) (by omega)]
        have e1 : n / 1000 = 0 := by omega
        have e2 : n / 100 % 10 = n / 100 := by omega
        rw [e1, e2]
        rfl
      · rw [padNum, natToChars_four n (by omega) h]
        rfl

lemma daysIn_le (y m : Nat) : daysIn y m ≤ 31 := by
  unfold daysIn
  split_ifs <;> omega

lemma formatChars_eq (t : GoTime) (h : ValidGoTime t) :
    formatLangsmithChars t =
      [digitChar (t.year / 1000), digitChar (t.year / 100 % 10),
        digitChar (t.year / 10 % 10), digitChar (t.year % 10), '-',
        digitChar (t.month / 10), digitChar (t.month % 10), '-',
        digitChar (t.day / 10), digitChar (t.day % 10), 'T',
        digitChar (t.hour / 10), digitChar (t.hour % 10), ':',
        digitChar (t.minute / 10), digitChar (t.minute % 10), ':',
        digitChar (t.second / 10), digitChar (t.second % 10)] := by
  obtain ⟨hy, hm1, hm2, hd1, hd2, hh, hmi, hs⟩ := h
  have hdle := daysIn_le t.year t.month
  rw [formatLangsmithChars, pad4_eq t.year hy, pad2_eq t.month (by omega),
    pad2_eq t.day (by omega), pad2_eq t.hour (by omega),
    pad2_eq t.minute (by omega), pad2_eq t.second (by omega)]
  rfl

lemma isDigitChar_digitChar : ∀ d, d < 10 → isDigitChar (digitChar d) = true := by
  decide

lemma digitVal_digitChar : ∀ d, d < 10 → digitVal (digitChar d) = d := by
  decide

lemma digitChar_jsonSafe : ∀ d, d < 10 →
    digitChar d ≠ '"' ∧ digitChar d ≠ '\\' := by
  decide

lemma parseLangsmith_format (t : GoTime) (h : ValidGoTime t) :
    parseLangsmith (String.mk (formatLangsmithChars t)) = .ok (truncSec t) := by
  obtain ⟨hy, hm1, hm2, hd1, hd2, hh, hmi, hs⟩ := h
  have hdle := daysIn_le t.year t.month
  have ey : 1000 * (t.year / 1000) + 100 * (t.year / 100 % 10) +
      10 * (t.year / 10 % 10) + t.year % 10 = t.year := by omega
  have emo : 10 * (t.month / 10) + t.month % 10 = t.month := by omega
  have ed : 10 * (t.day / 10) + t.day % 10 = t.day := by omega
  have eh : 10 * (t.hour / 10) + t.hour % 10 = t.hour := by omega
  have emi : 10 * (t.minute / 10) + t.minute % 10 = t.minute := by omega
  have ese : 10 * (t.second / 10) + t.second % 10 = t.second := by omega
  rw [formatChars_eq t ⟨hy, hm1, hm2, hd1, hd2, hh, hmi, hs⟩]
  simp only [parseLangsmith]
  simp [isDigitChar_digitChar (t.year / 1000) (by omega),
    isDigitChar_digitChar (t.year / 100 % 10) (by omega),
    isDigitChar_digitChar (t.year / 10 % 10) (by omega),
    isDigitChar_digitChar (t.year % 10) (by omega),
    isDigitChar_digitChar (t.month / 10) (by omega),
    isDigitChar_digitChar (t.month % 10) (by omega),
    isDigitChar_digitChar (t.day / 10) (by omega),
    isDigitChar_digitChar (t.day % 10) (by omega),
    isDigitChar_digitChar (t.hour / 10) (by omega),
    isDigitChar_digitChar (t.hour % 10) (by omega),
    isDigitChar_digitChar (t.minute / 10) (by omega),
    isDigitChar_digitChar (t.minute % 10) (by omega),
    isDigitChar_digitChar (t.second / 10) (by omega),
    isDigitChar_digitChar (t.second % 10) (by omega),
    digitVal_digitChar (t.year / 1000) (by omega),
    digitVal_digitChar (t.year / 100 % 10) (by omega),
    digitVal_digitChar (t.year / 10 % 10) (by omega),
    digitVal_digitChar (t.year % 10) (by omega),
    digitVal_digitChar (t.month / 10) (by omega),
    digitVal_digitChar (t.month % 10) (by omega),
    digitVal_digitChar (t.day / 10) (by omega),
    digitVal_digitChar (t.day % 10) (by omega),
    digitVal_digitChar (t.hour / 10) (by omega),
    digitVal_digitChar (t.hour % 10) (by omega),
    digitVal_digitChar (t.minute / 10) (by omega),
    digitVal_digitChar (t.minute % 10) (by omega),
    digitVal_digitChar (t.second / 10) (by omega),
    digitVal_digitChar (t.second % 10) (by omega),
    ey, emo, ed, eh, emi, ese, hm1, hm2, hd1, hd2, hh, hmi, hs, truncSec]

lemma formatChars_all_safe (t : GoTime) (h : ValidGoTime t) :
    (formatLangsmithChars t).all (fun c => c ≠ '"' && c ≠ '\\') = true := by
  obtain ⟨hy, hm1, hm2, hd1, hd2, hh, hmi, hs⟩ := h
  have hdle := daysIn_le t.year t.month
  rw [formatChars_eq t ⟨hy, hm1, hm2, hd1, hd2, hh, hmi, hs⟩]
  simp [List.all_cons,
    digitChar_jsonSafe (t.year / 1000) (by omega),
    digitChar_jsonSafe (t.year / 100 % 10) (by omega),
    digitChar_jsonSafe (t.year / 10 % 10) (by omega),
    digitChar_jsonSafe (t.year % 10) (by omega),
    digitChar_jsonSafe (t.month / 10) (by omega),
    digitChar_jsonSafe (t.month % 10) (by omega),
    digitChar_jsonSafe (t.day / 10) (by omega),
    digitChar_jsonSafe (t.day % 10) (by omega),
    digitChar_jsonSafe (t.hour / 10) (by omega),
    digitChar_jsonSafe (t.hour % 10) (by omega),
    digitChar_jsonSafe (t.minute / 10) (by omega),
    digitChar_jsonSafe (t.minute % 10) (by omega),
    digitChar_jsonSafe (t.second / 10) (by omega),
    digitChar_jsonSafe (t.second % 10) (by omega)]

lemma marshal_data (t : GoTime) :
    langsmithMarshalJSON t = String.mk ('"' :: (formatLangsmithChars t ++ ['"'])) :=
  rfl

lemma jsonDecode_marshal (t : GoTime) (h : ValidGoTime t) :
    jsonDecodeString (langsmithMarshalJSON t) =
      .ok (String.mk (formatLangsmithChars t)) := by
  rw [marshal_data]
  simp only [jsonDecodeString]
  rw [if_pos]
  · rw [List.dropLast_concat]
  · refine ⟨by simp, ?_, ?_⟩
    · rw [List.getLast?_concat]
    · rw [List.dropLast_concat]
      exact formatChars_all_safe t h

lemma formatChars_length (t : GoTime) (h : ValidGoTime t) :
    (formatLangsmithChars t).length = 19 := by
  rw [formatChars_eq t h]
  rfl

lemma roundtrip_core (t : GoTime) (h : ValidGoTime t) :
    unmarshalLangsmithTime (langsmithMarshalJSON t) = .ok (truncSec t) := by
  simp only [unmarshalLangsmithTime, jsonDecode_marshal t h]
  have h19 : (String.mk (formatLangsmithChars t)).length = 19 := by
    show (formatLangsmithChars t).length = 19
    exact formatChars_length t h
  rw [if_neg (by omega)]
  have htake : (String.mk (formatLangsmithChars t)).data.take 19 =
      formatLangsmithChars t := by
    apply List.take_of_length_le
    rw [formatChars_length t h]
  rw [htake, parseLangsmith_format t h]

/-- Decider for the fixed wire format `YYYY-MM-DDTHH:MM:SS`: exactly 19
characters, decimal digits in the date/time positions, the literal
separators `-`, `-`, `T`, `:`, `:` in between, and nothing after the
seconds (no fraction, no timezone suffix). -/
def matchesLangsmithFormat (s : String) : Bool :=
  match s.data with
  | [y3, y2, y1, y0, a1, m1, m0, a2, d1, d0, a3, h1, h0, a4, i1, i0, a5, e1, e0] =>
    a1 = '-' && a2 = '-' && a3 = 'T' && a4 = ':' && a5 = ':' &&
      isDigitChar y3 && isDigitChar y2 && isDigitChar y1 && isDigitChar y0 &&
      isDigitChar m1 && isDigitChar m0 && isDigitChar d1 && isDigitChar d0 &&
      isDigitChar h1 && isDigitChar h0 && isDigitChar i1 && isDigitChar i0 &&
      isDigitChar e1 && isDigitChar e0
  | _ => false

/-- Drops trailing `'0'` characters, as Go trims the fractional part. -/
def dropTrailingZeros (l : List Char) : List Char :=
  (l.reverse.dropWhile (fun c => c == '0')).reverse

/-- Fractional-second characters of Go's RFC 3339 rendering: empty when the
nanosecond count is zero, otherwise a dot followed by the nine-digit
nanosecond field with trailing zeros trimmed. -/
def fracChars (nanos : Nat) : List Char :=
  if nanos = 0 then [] else '.' :: dropTrailingZeros (padNum 9 nanos)

/-- Content of Go `time.Time.MarshalJSON` (RFC 3339 with nanoseconds) for a
UTC time with a year in `[0, 9999]`: the second-precision layout, an
optional fractional part, and the `Z` UTC designator.  This is the default
encoding used by every `time.Time`-typed field (`RunPayload`, `Dataset`,
`SimplePayload`, `PostPayload`, `PatchPayload`). -/
def goTimeRFC3339 (t : GoTime) : String :=
  String.mk (formatLangsmithChars t ++ fracChars t.nanos ++ ['Z'])

/-- JSON values, the image of Go values under `encoding/json`.  Go numeric
values (`int`, `float64`) are modelled as integers: no claim inspects a
non-integral numeric value. -/
inductive Jval where
  | jnull
  | jbool (b : Bool)
  | jnum (n : Int)
  | jstr (s : String)
  | jarr (elems : List Jval)
  | jobj (fields : List (String × Jval))

/-- A JSON object body is a field list in Go struct-declaration order, the
order `encoding/json` emits.  The helpers below reproduce `encoding/json`
field semantics.  A field list rather than a rendered byte string is kept:
the claims are about which fields appear and with which values. -/
def strField (name v : String) : List (String × Jval) := [(name, .jstr v)]

/-- Go `string` field with `omitempty`: omitted exactly when the value is
the empty string. -/
def strFieldOmitEmpty (name v : String) : List (String × Jval) :=
  if v = "" then [] else [(name, .jstr v)]

/-- Go pointer/`any` field with `omitempty`: omitted exactly when nil. -/
def anyFieldOmitEmpty (name : String) (v : Option Jval) : List (String × Jval) :=
  match v with
  | none => []
  | some j => [(name, j)]

/-- Go map field without `omitempty`: always present; a nil map encodes as
`null`, a non-nil map as an object. -/
def mapField (name : String) (m : Option (List (String × Jval))) :
    List (String × Jval) :=
  [(name, match m with | none => Jval.jnull | some l => Jval.jobj l)]

/-- Go map field with `omitempty`: omitted exactly when its length is zero
(nil or empty). -/
def mapFieldOmitEmpty (name : String) (m : Option (List (String × Jval))) :
    List (String × Jval) :=
  match m with
  | none => []
  | some [] => []
  | some l => [(name, Jval.jobj l)]

/-- Go slice field with `omitempty`: omitted exactly when its length is
zero (nil or empty). -/
def arrFieldOmitEmpty (name : String) (elems : Option (List Jval)) :
    List (String × Jval) :=
  match elems with
  | none => []
  | some [] => []
  | some l => [(name, Jval.jarr l)]

/-- Go numeric field with `omitempty`: omitted exactly when zero. -/
def numFieldOmitEmpty (name : String) (n : Int) : List (String × Jval) :=
  if n = 0 then [] else [(name, .jnum n)]

/-- The `Event` record of `contracts.go`. -/
structure Event where
  EventName : String
  Reason : String
  Value : String

/-- JSON encoding of `Event`: `event_name`, then `reason` and `value` with
`omitempty`. -/
def eventToJson (e : Event) : Jval :=
  .jobj (strField "event_name" e.EventName ++
    strFieldOmitEmpty "reason" e.Reason ++
    strFieldOmitEmpty "value" e.Value)

/-- The `RunPayload` record of `contracts.go`.  `StartTime` and `EndTime`
are Go `time.Time` values; maps and slices are `Option` lists so that nil
and empty are distinguished as Go distinguishes them. -/
structure RunPayload where
  RunID : String
  Name : String
  RunType : String
  StartTime : GoTime
  Inputs : Option (List (String × Jval))
  ParentID : String
  SessionID : String
  SessionName : String
  Tags : Option (List String)
  Outputs : Option (List (String × Jval))
  EndTime : GoTime
  Extras : Option (List (String × Jval))
  Events : Option (List Event)
  Error : String
  ReferenceExampleID : String

/-- `encoding/json` marshalling of `RunPayload`, field by field in struct
order.  `start_time` has no `omitempty`; `end_time` carries `omitempty` in
the Go tag, but `omitempty` never fires on a struct-typed field such as
`time.Time`, so both timestamps are always emitted in Go's default
RFC 3339 rendering. -/
def runPayloadToJson (p : RunPayload) : List (String × Jval) :=
  strField "id" p.RunID ++
  strField "name" p.Name ++
  strField "run_type" p.RunType ++
  [("start_time", Jval.jstr (goTimeRFC3339 p.StartTime))] ++
  mapField "inputs" p.Inputs ++
  strFieldOmitEmpty "parent_run_id" p.ParentID ++
  strFieldOmitEmpty "session_id" p.SessionID ++
  strFieldOmitEmpty "session_name" p.SessionName ++
  arrFieldOmitEmpty "tags" (p.Tags.map (fun l => l.map Jval.jstr)) ++
  mapFieldOmitEmpty "outputs" p.Outputs ++
  [("end_time", Jval.jstr (goTimeRFC3339 p.EndTime))] ++
  mapFieldOmitEmpty "extra" p.Extras ++
  arrFieldOmitEmpty "events" (p.Events.map (fun l => l.map eventToJson)) ++
  strFieldOmitEmpty "error" p.Error ++
  strFieldOmitEmpty "reference_example_id" p.ReferenceExampleID

/-- The `DatasetTransformation` record of `contracts.go`. -/
structure DatasetTransformation where
  Path : Option (List String)
  TransformationType : String

/-- JSON encoding of `DatasetTransformation`: both fields plain (a nil
`path` slice encodes as `null`). -/
def datasetTransformationToJson (tr : DatasetTransformation) : Jval :=
  .jobj [("path", match tr.Path with
            | none => Jval.jnull
            | some l => Jval.jarr (l.map Jval.jstr)),
         ("transformation_type", Jval.jstr tr.TransformationType)]

/-- The `Dataset` record of `contracts.go`.  `CreatedAt` and `ModifiedAt`
are Go `time.Time`; `Description`, `ExternallyManaged`, `DataType` and
`LastSessionStartTime` are pointers. -/
structure Dataset where
  ID : String
  Name : String
  Description : Option String
  CreatedAt : GoTime
  InputsSchemaDefinition : Option (List (String × Jval))
  OutputsSchemaDefinition : Option (List (String × Jval))
  ExternallyManaged : Option Bool
  Transformations : Option (List DatasetTransformation)
  DataType : Option String
  TenantID : String
  ExampleCount : Int
  SessionCount : Int
  ModifiedAt : GoTime
  LastSessionStartTime : Option GoTime

/-- `encoding/json` marshalling of `Dataset` in struct order: the two plain
`time.Time` fields are emitted in Go's default RFC 3339 rendering. -/
def datasetToJson (ds : Dataset) : List (String × Jval) :=
  strField "id" ds.ID ++
  strField "name" ds.Name ++
  anyFieldOmitEmpty "description" (ds.Description.map Jval.jstr) ++
  [("created_at", Jval.jstr (goTimeRFC3339 ds.CreatedAt))] ++
  mapFieldOmitEmpty "inputs_schema_definition" ds.InputsSchemaDefinition ++
  mapFieldOmitEmpty "outputs_schema_definition" ds.OutputsSchemaDefinition ++
  anyFieldOmitEmpty "externally_managed" (ds.ExternallyManaged.map Jval.jbool) ++
  arrFieldOmitEmpty "transformations"
    (ds.Transformations.map (fun l => l.map datasetTransformationToJson)) ++
  anyFieldOmitEmpty "data_type" (ds.DataType.map Jval.jstr) ++
  strField "tenant_id" ds.TenantID ++
  [("example_count", Jval.jnum ds.ExampleCount),
   ("session_count", Jval.jnum ds.SessionCount),
   ("modified_at", Jval.jstr (goTimeRFC3339 ds.ModifiedAt))] ++
  anyFieldOmitEmpty "last_session_start_time"
    (ds.LastSessionStartTime.map (fun t => Jval.jstr (goTimeRFC3339 t)))

/-- The `FeedbackSource` record of `contracts.go`; the Go field named
`Type` is rendered here as `SourceType` (`Type` is a Lean keyword). -/
structure FeedbackSource where
  SourceType : String
  Metadata : Option (List (String × Jval))

/-- JSON encoding of `FeedbackSource`: both fields plain. -/
def feedbackSourceToJson (s : FeedbackSource) : Jval :=
  .jobj (strField "type" s.SourceType ++ mapField "metadata" s.Metadata)

/-- The `FeedbackCategory` record of `contracts.go` (`Value` is a Go
`float64`, modelled as an integer). -/
structure FeedbackCategory where
  Value : Int
  Label : String

/-- JSON encoding of `FeedbackCategory`. -/
def feedbackCategoryToJson (c : FeedbackCategory) : Jval :=
  .jobj [("value", Jval.jnum c.Value), ("label", Jval.jstr c.Label)]

/-- The `FeedbackConfig` record of `contracts.go`; the Go field named
`Type` is rendered as `ConfigType`; `Min`/`Max` are `float64`, modelled as
integers. -/
structure FeedbackConfig where
  ConfigType : String
  Min : Int
  Max : Int
  Categories : Option (List FeedbackCategory)

/-- JSON encoding of `FeedbackConfig`: all four fields plain. -/
def feedbackConfigToJson (fc : FeedbackConfig) : Jval :=
  .jobj [("type", Jval.jstr fc.ConfigType),
         ("min", Jval.jnum fc.Min),
         ("max", Jval.jnum fc.Max),
         ("categories", match fc.Categories with
            | none => Jval.jnull
            | some l => Jval.jarr (l.map feedbackCategoryToJson))]

/-- The `Feedback` record of `contracts.go`.  `CreatedAt`/`ModifiedAt` are
`LangsmithTime`; `Score`, `Value` and `Correction` are Go `any`. -/
structure Feedback where
  ID : String
  CreatedAt : LangsmithTime
  ModifiedAt : LangsmithTime
  Key : String
  Score : Option Jval
  Value : Option Jval
  Comment : String
  Correction : Option Jval
  FeedbackGroupID : String
  ComparativeExperimentID : String
  RunID : String
  SessionID : String
  TraceID : String
  FeedbackSource : Option FeedbackSource
  FeedbackConfig : Option FeedbackConfig

/-- `encoding/json` marshalling of `Feedback` in struct order.
`created_at` and `modified_at` carry `omitempty` in the Go tags, but
`omitempty` never fires on a struct-typed field such as `LangsmithTime`,
so both are always emitted through `LangsmithTime.MarshalJSON`. -/
def feedbackToJson (f : Feedback) : List (String × Jval) :=
  strFieldOmitEmpty "id" f.ID ++
  [("created_at", Jval.jstr (formatLangsmith f.CreatedAt)),
   ("modified_at", Jval.jstr (formatLangsmith f.ModifiedAt)),
   ("key", Jval.jstr f.Key)] ++
  anyFieldOmitEmpty "score" f.Score ++
  anyFieldOmitEmpty "value" f.Value ++
  strFieldOmitEmpty "comment" f.Comment ++
  anyFieldOmitEmpty "correction" f.Correction ++
  strFieldOmitEmpty "feedback_group_id" f.FeedbackGroupID ++
  strFieldOmitEmpty "comparative_experiment_id" f.ComparativeExperimentID ++
  strFieldOmitEmpty "run_id" f.RunID ++
  strFieldOmitEmpty "session_id" f.SessionID ++
  strFieldOmitEmpty "trace_id" f.TraceID ++
  anyFieldOmitEmpty "feedback_source" (f.FeedbackSource.map feedbackSourceToJson) ++
  anyFieldOmitEmpty "feedback_config" (f.FeedbackConfig.map feedbackConfigToJson)

/-- The `ExperimentScore` record of `contracts.go` (`Score`/`Value` are
`float64`, modelled as integers). -/
structure ExperimentScore where
  CreatedAt : LangsmithTime
  ModifiedAt : LangsmithTime
  Key : String
  Score : Int
  Value : Int
  Comment : String
  Correction : Option (List (String × Jval))
  FeedbackGroupID : String
  ComparativeExperimentID : String
  ID : String
  FeedbackSource : Option FeedbackSource
  FeedbackConfig : Option FeedbackConfig
  Extra : Option (List (String × Jval))

/-- `encoding/json` marshalling of `ExperimentScore` in struct order.
`created_at`/`modified_at` carry `omitempty` but are struct-typed
`LangsmithTime` fields, so they are always emitted. -/
def experimentScoreToJson (sc : ExperimentScore) : List (String × Jval) :=
  [("created_at", Jval.jstr (formatLangsmith sc.CreatedAt)),
   ("modified_at", Jval.jstr (formatLangsmith sc.ModifiedAt)),
   ("key", Jval.jstr sc.Key)] ++
  numFieldOmitEmpty "score" sc.Score ++
  numFieldOmitEmpty "value" sc.Value ++
  strFieldOmitEmpty "comment" sc.Comment ++
  mapFieldOmitEmpty "correction" sc.Correction ++
  strFieldOmitEmpty "feedback_group_id" sc.FeedbackGroupID ++
  strFieldOmitEmpty "comparative_experiment_id" sc.ComparativeExperimentID ++
  strFieldOmitEmpty "id" sc.ID ++
  anyFieldOmitEmpty "feedback_source" (sc.FeedbackSource.map feedbackSourceToJson) ++
  anyFieldOmitEmpty "feedback_config" (sc.FeedbackConfig.map feedbackConfigToJson) ++
  mapFieldOmitEmpty "extra" sc.Extra

/-- The `TracerSessionRequest` record of `contracts.go`. -/
structure TracerSessionRequest where
  ID : String
  StartTime : LangsmithTime
  EndTime : LangsmithTime
  Extra : Option (List (String × Jval))
  Name : String
  Description : String
  DefaultDatasetID : String
  ReferenceDatasetID : String
  TraceTier : String

/-- `encoding/json` marshalling of `TracerSessionRequest` in struct order.
`start_time`/`end_time` carry `omitempty` but are struct-typed
`LangsmithTime` fields, so they are always emitted. -/
def tracerSessionRequestToJson (ts : TracerSessionRequest) : List (String × Jval) :=
  strFieldOmitEmpty "id" ts.ID ++
  [("start_time", Jval.jstr (formatLangsmith ts.StartTime)),
   ("end_time", Jval.jstr (formatLangsmith ts.EndTime))] ++
  mapFieldOmitEmpty "extra" ts.Extra ++
  strFieldOmitEmpty "name" ts.Name ++
  strFieldOmitEmpty "description" ts.Description ++
  strFieldOmitEmpty "default_dataset_id" ts.DefaultDatasetID ++
  strFieldOmitEmpty "reference_dataset_id" ts.ReferenceDatasetID ++
  strFieldOmitEmpty "trace_tier" ts.TraceTier

/-- The hardcoded default endpoint (`BASE_URL` in `contracts.go`). -/
def BASE_URL : String := "https://api.smith.langchain.com/api/v1"

/-- The `DatasetCSV` record of `contracts.go`. -/
structure DatasetCSV where
  File : String
  InputKeys : List String
  Name : String
  DataType : String
  OutputKeys : List String
  Description : String

/-- `DatasetCSV.ToMultiPart`: the multipart parts, in write order, paired
with the content type.  A part is a (field name, value) pair; the file
part's attached filename (`dataset.csv`) and the random multipart boundary
are abstracted away.  Every write goes to an in-memory buffer, so the Go
error branches are unreachable and the model is total. -/
def toMultiPart (d : DatasetCSV) : List (String × String) × String :=
  ((if d.File = "" then [] else [("file", d.File)]) ++
    d.InputKeys.map (fun k => ("input_keys", k)) ++
    (if d.Name = "" then [] else [("name", d.Name)]) ++
    [("data_type", d.DataType)] ++
    d.OutputKeys.map (fun k => ("output_keys", k)) ++
    (if d.Description = "" then [] else [("description", d.Description)]),
    "multipart/form-data")

/-- The `baseClient` state carried by `DatasetClient`: API key and base
URL, both immutable after construction. -/
structure DatasetClient where
  APIKey : String
  baseUrl : String
deriving DecidableEq

/-- `NewDatasetClient`: fails when the `LANGSMITH_API_KEY` environment
value is empty (Go `os.Getenv` returns `""` for unset variables);
otherwise the base URL is the `LANGSMITH_URL` override when non-empty,
else `BASE_URL`, with `/datasets` appended (`fmt.Sprintf("%s/datasets",
url)`). -/
def newDatasetClient (apiKeyEnv urlEnv : String) : Except String DatasetClient :=
  if apiKeyEnv = "" then .error "langsmith api key is required"
  else .ok ⟨apiKeyEnv, (if urlEnv = "" then BASE_URL else urlEnv) ++ "/datasets"⟩

/-- An HTTP response from the remote service: status code and raw body. -/
structure HttpResponse where
  status : Nat
  body : String

/-- Observable effects of one public operation: the HTTP request it issues
(JSON or multipart form) and any line printed to standard output. -/
inductive Effect where
  | httpReq (method url : String) (body : Option String)
  | httpForm (url contentType : String) (parts : List (String × String))
  | println (line : String)
deriving DecidableEq

/-- Whether an effect is a print to standard output. -/
def isPrintln : Effect → Bool
  | .println _ => true
  | _ => false

/-- Whether an effect is an HTTP request (JSON or form). -/
def isHttp : Effect → Bool
  | .println _ => false
  | _ => true

/-- Modelled from the spec: `handleResponse` is not under `src/`; per the
spec, a status in 200–299 is success regardless of body, anything else is
an error carrying the decoded `detail` message (the raw body stands in for
the decoded detail string here). -/
def handleResponse (r : HttpResponse) : Except String Unit :=
  if 200 ≤ r.status ∧ r.status ≤ 299 then .ok () else .error r.body

/-- Modelled from the spec: `baseClient.Do` is not under `src/`; per the
spec it issues a single request with the given method and JSON body, sets
the API-key header, and classifies the response. -/
def clientDo (url method : String) (body : String) (resp : HttpResponse) :
    List Effect × Except String Unit :=
  ([.httpReq method url (some body)], handleResponse resp)

/-- Modelled from the spec: `baseClient.PostForm` is not under `src/`; per
the spec it posts a pre-encoded multipart body with the caller-supplied
content type and classifies the response. -/
def clientPostForm (url : String) (parts : List (String × String))
    (contentType : String) (resp : HttpResponse) :
    List Effect × Except String Unit :=
  ([.httpForm url contentType parts], handleResponse resp)

/-- Classification of a response followed by returning its raw body, the
shape of every GET/decode operation in `dataset.go`; decoding the body
into the typed result is abstracted (the raw body is returned). -/
def bodyResult (resp : HttpResponse) : Except String String :=
  match handleResponse resp with
  | .error e => .error e
  | .ok _ => .ok resp.body

/-- Abstract rendering of `fmt.Println(req)` in `DownloadDatasetCsv`: only
the occurrence of the print is claim-relevant, not Go's exact rendering of
an `http.Request` value. -/
def goReprRequest (method url : String) : String := method ++ " " ++ url

/-- URL of `CreateDataset`: the client's base URL itself. -/
def createDatasetUrl (c : DatasetClient) : String := c.baseUrl

/-- URL of `UploadCSV`. -/
def uploadCSVUrl (c : DatasetClient) : String := c.baseUrl ++ "/upload"

/-- URL of `UploadExperiment`. -/
def uploadExperimentUrl (c : DatasetClient) : String :=
  c.baseUrl ++ "/upload-experiment"

/-- URL of `ReadDataset` (`fmt.Sprintf("%s/%s", d.baseUrl, id)`). -/
def readDatasetUrl (c : DatasetClient) (id : String) : String :=
  c.baseUrl ++ "/" ++ id

/-- URL of `DownloadDatasetCsv`. -/
def downloadDatasetCsvUrl (c : DatasetClient) (id : String) : String :=
  c.baseUrl ++ "/" ++ id ++ "/csv"

/-- URL of `GetExamples`: built from the hardcoded `BASE_URL` constant, not
from the client's configured base URL. -/
def getExamplesUrl (c : DatasetClient) (datasetId : String) (offset : Int) :
    String :=
  BASE_URL ++ "/examples?dataset=" ++ datasetId ++ "&offset=" ++ toString offset

/-- URL of `CreateExample`: built from the hardcoded `BASE_URL` constant. -/
def createExampleUrl (c : DatasetClient) : String := BASE_URL ++ "/examples"

/-- URL of `CreateExamples`: built from the hardcoded `BASE_URL` constant. -/
def createExamplesUrl (c : DatasetClient) : String := BASE_URL ++ "/examples/bulk"

/-- URL of `GetExamplesWithRuns`. -/
def getExamplesWithRunsUrl (c : DatasetClient) (datasetId : String) : String :=
  c.baseUrl ++ "/" ++ datasetId ++ "/runs"

/-- URL of `CreateComparativeExperiment`. -/
def createComparativeExperimentUrl (c : DatasetClient) : String :=
  c.baseUrl ++ "/comparative"

/-- URL of `ReadComparitiveExperiment`. -/
def readComparitiveExperimentUrl (c : DatasetClient)
    (datasetId experimentId : String) : String :=
  c.baseUrl ++ "/" ++ datasetId ++ "/comparative?id=" ++ experimentId

/-- URL of `QueryRuns`: built from the hardcoded `BASE_URL` constant. -/
def queryRunsUrl (c : DatasetClient) : String := BASE_URL ++ "/runs/query"

/-- URL of `CreateFeedback`: built from the hardcoded `BASE_URL` constant. -/
def createFeedbackUrl (c : DatasetClient) : String := BASE_URL ++ "/feedback"

/-- URL of `CreateTracerSession`: built from the hardcoded `BASE_URL`
constant. -/
def createTracerSessionUrl (c : DatasetClient) : String := BASE_URL ++ "/sessions"

/-- URL of `UpdateTracerSession`: built from the hardcoded `BASE_URL`
constant. -/
def updateTracerSessionUrl (c : DatasetClient) (sessionId : String) : String :=
  BASE_URL ++ "/sessions/" ++ sessionId

/-- `CreateDataset`: on a marshalling error, return it with no request; on
success, POST the serialized body to the base URL.  `json.Marshal` is
opaque foreign code, so its outcome is a parameter. -/
def createDatasetRun (c : DatasetClient) (marshalResult : Except String String)
    (resp : HttpResponse) : List Effect × Except String Unit :=
  match marshalResult with
  | .error e => ([], .error e)
  | .ok data => clientDo (createDatasetUrl c) "POST" data resp

/-- `UploadCSV`: multipart-encodes the input (which cannot fail in the
model, matching the unreachable buffer-write error branches) and posts the
form. -/
def uploadCSVRun (c : DatasetClient) (input : DatasetCSV) (resp : HttpResponse) :
    List Effect × Except String Unit :=
  clientPostForm (uploadCSVUrl c) (toMultiPart input).1 (toMultiPart input).2 resp

/-- `UploadExperiment`: as `CreateDataset` at the upload-experiment URL. -/
def uploadExperimentRun (c : DatasetClient) (marshalResult : Except String String)
    (resp : HttpResponse) : List Effect × Except String Unit :=
  match marshalResult with
  | .error e => ([], .error e)
  | .ok data => clientDo (uploadExperimentUrl c) "POST" data resp

/-- `ReadDataset`: one GET, then the classified raw body. -/
def readDatasetRun (c : DatasetClient) (id : String) (resp : HttpResponse) :
    List Effect × Except String String :=
  ([.httpReq "GET" (readDatasetUrl c id) none], bodyResult resp)

/-- `DownloadDatasetCsv`: prints the request (`fmt.Println(req)`), then one
GET, then the classified raw body. -/
def downloadDatasetCsvRun (c : DatasetClient) (id : String)
    (resp : HttpResponse) : List Effect × Except String String :=
  ([.println (goReprRequest "GET" (downloadDatasetCsvUrl c id)),
    .httpReq "GET" (downloadDatasetCsvUrl c id) none], bodyResult resp)

/-- `GetExamples`: one GET to the `BASE_URL`-built URL; decoding of the
body into `[]Example` is abstracted. -/
def getExamplesRun (c : DatasetClient) (datasetId : String) (offset : Int)
    (resp : HttpResponse) : List Effect × Except String String :=
  ([.httpReq "GET" (getExamplesUrl c datasetId offset) none], bodyResult resp)

/-- `CreateExample`: on a marshalling error, return it with no request and
no print; on success, print the serialized body (`fmt.Println`), then POST
it to the `BASE_URL`-built URL. -/
def createExampleRun (c : DatasetClient) (marshalResult : Except String String)
    (resp : HttpResponse) : List Effect × Except String Unit :=
  match marshalResult with
  | .error e => ([], .error e)
  | .ok data =>
    (Effect.println data :: (clientDo (createExampleUrl c) "POST" data resp).1,
      (clientDo (createExampleUrl c) "POST" data resp).2)

/-- `CreateExamples`: bulk variant, no print. -/
def createExamplesRun (c : DatasetClient) (marshalResult : Except String String)
    (resp : HttpResponse) : List Effect × Except String Unit :=
  match marshalResult with
  | .error e => ([], .error e)
  | .ok data => clientDo (createExamplesUrl c) "POST" data resp

/-- `json.Marshal` output of the inline body of `GetExamplesWithRuns`: a
map with the single key `session_ids` holding the one hardcoded session
id; it does not depend on any argument. -/
def getExamplesWithRunsBody : String :=
  "\x7b\"session_ids\":[\"58a7c5a2-c14e-42dc-936a-3af8e84777fa\"]\x7d"

/-- `GetExamplesWithRuns`: one POST of the hardcoded body; decoding of the
response is abstracted. -/
def getExamplesWithRunsRun (c : DatasetClient) (datasetId : String)
    (resp : HttpResponse) : List Effect × Except String String :=
  ([.httpReq "POST" (getExamplesWithRunsUrl c datasetId)
      (some getExamplesWithRunsBody)], bodyResult resp)

/-- `CreateComparativeExperiment`: as `CreateDataset` at the comparative
URL. -/
def createComparativeExperimentRun (c : DatasetClient)
    (marshalResult : Except String String) (resp : HttpResponse) :
    List Effect × Except String Unit :=
  match marshalResult with
  | .error e => ([], .error e)
  | .ok data => clientDo (createComparativeExperimentUrl c) "POST" data resp

/-- `ReadComparitiveExperiment`: one GET; decoding abstracted. -/
def readComparitiveExperimentRun (c : DatasetClient)
    (datasetId experimentId : String) (resp : HttpResponse) :
    List Effect × Except String String :=
  ([.httpReq "GET" (readComparitiveExperimentUrl c datasetId experimentId) none],
    bodyResult resp)

/-- `QueryRuns`: one POST to the `BASE_URL`-built query URL.  The inline
map body (`session`, `root`, `select`, `filter`) always marshals
successfully in Go; the marshalled bytes are a parameter. -/
def queryRunsRun (c : DatasetClient) (bodyData : String) (resp : HttpResponse) :
    List Effect × Except String String :=
  ([.httpReq "POST" (queryRunsUrl c) (some bodyData)], bodyResult resp)

/-- `CreateFeedback`: as `CreateDataset` at the `BASE_URL` feedback URL. -/
def createFeedbackRun (c : DatasetClient) (marshalResult : Except String String)
    (resp : HttpResponse) : List Effect × Except String Unit :=
  match marshalResult with
  | .error e => ([], .error e)
  | .ok data => clientDo (createFeedbackUrl c) "POST" data resp

/-- `CreateTracerSession`: as `CreateDataset` at the `BASE_URL` sessions
URL. -/
def createTracerSessionRun (c : DatasetClient)
    (marshalResult : Except String String) (resp : HttpResponse) :
    List Effect × Except String Unit :=
  match marshalResult with
  | .error e => ([], .error e)
  | .ok data => clientDo (createTracerSessionUrl c) "POST" data resp

/-- `UpdateTracerSession`: PATCH to the `BASE_URL` sessions URL with the
session id appended. -/
def updateTracerSessionRun (c : DatasetClient) (sessionId : String)
    (marshalResult : Except String String) (resp : HttpResponse) :
    List Effect × Except String Unit :=
  match marshalResult with
  | .error e => ([], .error e)
  | .ok data => clientDo (updateTracerSessionUrl c sessionId) "PATCH" data resp

lemma filter_inputKeys_map_self (xs : List String) :
    (xs.map (fun k => (("input_keys" : String), k))).filter
      (fun q => q.1 == "input_keys") = xs.map (fun k => ("input_keys", k)) := by
  induction xs with
  | nil => rfl
  | cons a l ih => simp [List.filter_cons, ih]

lemma filter_inputKeys_map_other (xs : List String) :
    (xs.map (fun k => (("output_keys" : String), k))).filter
      (fun q => q.1 == "input_keys") = [] := by
  induction xs with
  | nil => rfl
  | cons a l ih => simp [List.filter_cons, ih]

lemma map_snd_inputKeys (xs : List String) :
    (xs.map (fun k => (("input_keys" : String), k))).map Prod.snd = xs := by
  induction xs with
  | nil => rfl
  | cons a l ih => simp [ih]

lemma filter_inputKeys_ifsingle (c : Prop) [Decidable c] (name v : String)
    (h : (name == "input_keys") = false) :
    (if c then ([] : List (String × String)) else [(name, v)]).filter
      (fun q => q.1 == "input_keys") = [] := by
  split <;> simp [List.filter_cons, h]

/-- C3 counterexample: the claim quantifies over every time value, but for
the year-10000 instant the encoded string is 20 characters long, the
decoder's 19-character truncation cuts into the seconds field, and parsing
fails, so decode-of-encode does not return the truncated original. -/
theorem C3_counterexample :
    unmarshalLangsmithTime (langsmithMarshalJSON ⟨10000, 1, 1, 0, 0, 0, 0⟩) =
      .err "parsing time: bad separator" ∧
    unmarshalLangsmithTime (langsmithMarshalJSON ⟨10000, 1, 1, 0, 0, 0, 0⟩) ≠
      .ok (truncSec ⟨10000, 1, 1, 0, 0, 0, 0⟩) := by
  exact ⟨rfl, by decide⟩

/-- C3 (amended): for every time value with a four-digit year and valid
calendar fields, JSON-encoding it as a `LangsmithTime` and then
JSON-decoding the produced bytes succeeds and returns the original value
truncated to second precision. -/
theorem C3_roundtrip (t : GoTime) (h : ValidGoTime t) :
    unmarshalLangsmithTime (langsmithMarshalJSON t) = .ok (truncSec t) :=
  roundtrip_core t h

/-- C3 witness: the round trip evaluated on a concrete leap-day instant
with a non-zero nanosecond component. -/
theorem C3_roundtrip_witness :
    ValidGoTime ⟨2024, 2, 29, 23, 59, 58, 123456789⟩ ∧
    unmarshalLangsmithTime (langsmithMarshalJSON ⟨2024, 2, 29, 23, 59, 58, 123456789⟩) =
      .ok ⟨2024, 2, 29, 23, 59, 58, 0⟩ :=
  ⟨by decide, C3_roundtrip ⟨2024, 2, 29, 23, 59, 58, 123456789⟩ (by decide)⟩

/-- C4 counterexample: a well-formed JSON string shorter than 19
characters makes the decoder's `s[:19]` slice panic instead of returning
an error. -/
theorem C4_counterexample :
    unmarshalLangsmithTime "\"2024\"" =
      .panicked "runtime error: slice bounds out of range" := rfl

/-- C4 (amended): for every JSON string input whose decoded string has at
least 19 characters, the decoder truncates it to the first 19 characters
before parsing and returns a value or an error; when the decoded string is
shorter than 19 characters, the decoder panics on the out-of-range slice
instead of returning an error. -/
theorem C4_truncate_or_panic (b s : String) (hdec : jsonDecodeString b = .ok s) :
    (19 ≤ s.length →
      unmarshalLangsmithTime b =
        match parseLangsmith (String.mk (s.data.take 19)) with
        | .error e => .err e
        | .ok t => .ok t) ∧
    (s.length < 19 →
      unmarshalLangsmithTime b = .panicked "runtime error: slice bounds out of range") := by
  constructor
  · intro hl
    simp only [unmarshalLangsmithTime, hdec]
    rw [if_neg (by omega)]
  · intro hl
    simp only [unmarshalLangsmithTime, hdec]
    rw [if_pos hl]

/-- C4 witness: a 27-character decoded input is truncated to 19 characters
and parses (the fractional seconds and zone suffix are discarded); a
3-character decoded input panics. -/
theorem C4_truncate_or_panic_witness :
    jsonDecodeString "\"2026-01-02T03:04:05.123456Z\"" = .ok "2026-01-02T03:04:05.123456Z" ∧
    unmarshalLangsmithTime "\"2026-01-02T03:04:05.123456Z\"" = .ok ⟨2026, 1, 2, 3, 4, 5, 0⟩ ∧
    unmarshalLangsmithTime "\"xyz\"" = .panicked "runtime error: slice bounds out of range" := by
  refine ⟨rfl, ?_, ?_⟩
  · have h := (C4_truncate_or_panic "\"2026-01-02T03:04:05.123456Z\""
      "2026-01-02T03:04:05.123456Z" rfl).1 (by decide)
    exact h.trans (by rfl)
  · exact (C4_truncate_or_panic "\"xyz\"" "xyz" rfl).2 (by decide)

/-- C7 counterexample: with an API key and an override set, construction
succeeds but the stored base URL is the override with `/datasets`
appended, not the override itself. -/
theorem C7_counterexample :
    newDatasetClient "k" "http://example.test" =
      .ok ⟨"k", "http://example.test/datasets"⟩ ∧
    "http://example.test/datasets" ≠ "http://example.test" := by
  exact ⟨rfl, by decide⟩

/-- C7 (amended): constructing the client when no API key is set returns
the configuration error and no client; when an API key is set,
construction succeeds and the client's stored base URL is the override
when present, otherwise the default endpoint, in both cases with
`/datasets` appended. -/
theorem C7_construction (a u : String) :
    (a = "" → newDatasetClient a u = .error "langsmith api key is required") ∧
    (a ≠ "" → u = "" → newDatasetClient a u = .ok ⟨a, BASE_URL ++ "/datasets"⟩) ∧
    (a ≠ "" → u ≠ "" → newDatasetClient a u = .ok ⟨a, u ++ "/datasets"⟩) := by
  refine ⟨?_, ?_, ?_⟩ <;> intros <;> simp [newDatasetClient, *]

/-- C7 witness: construction evaluated with no key, with a key and no
override, and with a key and an override. -/
theorem C7_construction_witness :
    newDatasetClient "" "" = .error "langsmith api key is required" ∧
    newDatasetClient "k" "" = .ok ⟨"k", BASE_URL ++ "/datasets"⟩ ∧
    newDatasetClient "k" "http://b.test" = .ok ⟨"k", "http://b.test/datasets"⟩ := by
  refine ⟨(C7_construction "" "").1 rfl, (C7_construction "k" "").2.1 (by decide) rfl, ?_⟩
  exact (C7_construction "k" "http://b.test").2.2 (by decide) (by decide)

/-- C8: every operation that serializes a request body returns a
marshalling error immediately, with an empty effect trace — no HTTP
request is issued. -/
theorem C8_marshal_error (c : DatasetClient) (em sid : String) (resp : HttpResponse) :
    createDatasetRun c (.error em) resp = ([], .error em) ∧
    uploadExperimentRun c (.error em) resp = ([], .error em) ∧
    createExampleRun c (.error em) resp = ([], .error em) ∧
    createExamplesRun c (.error em) resp = ([], .error em) ∧
    createComparativeExperimentRun c (.error em) resp = ([], .error em) ∧
    createFeedbackRun c (.error em) resp = ([], .error em) ∧
    createTracerSessionRun c (.error em) resp = ([], .error em) ∧
    updateTracerSessionRun c sid (.error em) resp = ([], .error em) := by
  exact ⟨rfl, rfl, rfl, rfl, rfl, rfl, rfl, rfl⟩

/-- C10: for every client state, dataset id and response,
`GetExamplesWithRuns` issues exactly one POST whose body is the constant
JSON object holding the single hardcoded session id — the body does not
depend on the dataset id or on any caller-supplied session identifiers
(the operation accepts none). -/
theorem C10_hardcoded_session (c : DatasetClient) (datasetId : String)
    (resp : HttpResponse) :
    (getExamplesWithRunsRun c datasetId resp).1 =
      [.httpReq "POST" (c.baseUrl ++ "/" ++ datasetId ++ "/runs")
        (some "\x7b\"session_ids\":[\"58a7c5a2-c14e-42dc-936a-3af8e84777fa\"]\x7d")] :=
  rfl

/-- C2 counterexample: with the override set at construction, `GetExamples`
still targets the hardcoded default endpoint, not a URL built from the
constructed base URL. -/
theorem C2_counterexample :
    newDatasetClient "key" "http://example.test" =
      .ok ⟨"key", "http://example.test/datasets"⟩ ∧
    getExamplesUrl ⟨"key", "http://example.test/datasets"⟩ "d1" 0 =
      "https://api.smith.langchain.com/api/v1/examples?dataset=d1&offset=0" ∧
    List.isPrefixOf "http://example.test".data
      "https://api.smith.langchain.com/api/v1/examples?dataset=d1&offset=0".data
      = false := by
  exact ⟨rfl, rfl, by decide⟩

/-- C2 (amended): CreateDataset, UploadCSV, UploadExperiment, ReadDataset,
DownloadDatasetCsv, GetExamplesWithRuns, CreateComparativeExperiment and
ReadComparitiveExperiment target URLs built from the client's constructed
base URL; GetExamples, CreateExample, CreateExamples, QueryRuns,
CreateFeedback, CreateTracerSession and UpdateTracerSession target URLs
built from the hardcoded default endpoint, identical for any two client
states, ignoring the configured base URL. -/
theorem C2_urls (c c' : DatasetClient) (id dsId expId sid datasetId : String)
    (o : Int) :
    (createDatasetUrl c = c.baseUrl) ∧
    (uploadCSVUrl c = c.baseUrl ++ "/upload") ∧
    (uploadExperimentUrl c = c.baseUrl ++ "/upload-experiment") ∧
    (readDatasetUrl c id = c.baseUrl ++ ("/" ++ id)) ∧
    (downloadDatasetCsvUrl c id = c.baseUrl ++ ("/" ++ id ++ "/csv")) ∧
    (getExamplesWithRunsUrl c dsId = c.baseUrl ++ ("/" ++ dsId ++ "/runs")) ∧
    (createComparativeExperimentUrl c = c.baseUrl ++ "/comparative") ∧
    (readComparitiveExperimentUrl c dsId expId =
      c.baseUrl ++ ("/" ++ dsId ++ "/comparative?id=" ++ expId)) ∧
    (getExamplesUrl c datasetId o = getExamplesUrl c' datasetId o) ∧
    (getExamplesUrl c datasetId o =
      BASE_URL ++ ("/examples?dataset=" ++ datasetId ++ "&offset=" ++ toString o)) ∧
    (createExampleUrl c = createExampleUrl c') ∧
    (createExampleUrl c = BASE_URL ++ "/examples") ∧
    (createExamplesUrl c = createExamplesUrl c') ∧
    (createExamplesUrl c = BASE_URL ++ "/examples/bulk") ∧
    (queryRunsUrl c = queryRunsUrl c') ∧
    (queryRunsUrl c = BASE_URL ++ "/runs/query") ∧
    (createFeedbackUrl c = createFeedbackUrl c') ∧
    (createFeedbackUrl c = BASE_URL ++ "/feedback") ∧
    (createTracerSessionUrl c = createTracerSessionUrl c') ∧
    (createTracerSessionUrl c = BASE_URL ++ "/sessions") ∧
    (updateTracerSessionUrl c sid = updateTracerSessionUrl c' sid) ∧
    (updateTracerSessionUrl c sid = BASE_URL ++ ("/sessions/" ++ sid)) := by
  and_intros <;>
    simp [createDatasetUrl, uploadCSVUrl, uploadExperimentUrl, readDatasetUrl,
      downloadDatasetCsvUrl, getExamplesWithRunsUrl, createComparativeExperimentUrl,
      readComparitiveExperimentUrl, getExamplesUrl, createExampleUrl,
      createExamplesUrl, queryRunsUrl, createFeedbackUrl, createTracerSessionUrl,
      updateTracerSessionUrl, String.append_assoc]

/-- C9: for every `DatasetCSV` with a non-empty input-keys list, the
multipart body contains exactly one `input_keys` part per list entry, in
the original list order. -/
theorem C9_input_keys (d : DatasetCSV) (h : d.InputKeys ≠ []) :
    ((toMultiPart d).1.filter (fun q => q.1 == "input_keys")).map Prod.snd =
      d.InputKeys := by
  simp only [toMultiPart, List.filter_append, List.map_append,
    filter_inputKeys_ifsingle _ "file" d.File (by decide),
    filter_inputKeys_ifsingle _ "name" d.Name (by decide),
    filter_inputKeys_ifsingle _ "description" d.Description (by decide),
    filter_inputKeys_map_self, filter_inputKeys_map_other, map_snd_inputKeys]
  simp [List.filter_cons]

/-- C9 witness: the multipart parts of a concrete two-key CSV payload. -/
theorem C9_input_keys_witness :
    (⟨"csvdata", ["a", "b"], "", "kv", [], ""⟩ : DatasetCSV).InputKeys ≠ [] ∧
    ((toMultiPart ⟨"csvdata", ["a", "b"], "", "kv", [], ""⟩).1.filter
      (fun q => q.1 == "input_keys")).map Prod.snd = ["a", "b"] :=
  ⟨by decide, C9_input_keys ⟨"csvdata", ["a", "b"], "", "kv", [], ""⟩ (by decide)⟩

/-- C6 counterexample: `DownloadDatasetCsv` prints the request to standard
output (`fmt.Println(req)`) in addition to issuing its HTTP request. -/
theorem C6_counterexample :
    (downloadDatasetCsvRun ⟨"k", "https://api.smith.langchain.com/api/v1/datasets"⟩
        "d1" ⟨200, ""⟩).1 =
      [.println "GET https://api.smith.langchain.com/api/v1/datasets/d1/csv",
       .httpReq "GET" "https://api.smith.langchain.com/api/v1/datasets/d1/csv" none] ∧
    isPrintln
      (Effect.println "GET https://api.smith.langchain.com/api/v1/datasets/d1/csv")
      = true := by
  exact ⟨rfl, rfl⟩

/-- C6 (amended): every public operation issues at most one HTTP request,
and none produces diagnostic output of its own except `DownloadDatasetCsv`
(which always prints the request) and `CreateExample` (which prints the
serialized body when serialization succeeds). -/
theorem C6_effects (c : DatasetClient) (resp : HttpResponse)
    (id dsId expId sid datasetId bodyData em : String) (csv : DatasetCSV)
    (o : Int) :
    ((createDatasetRun c (.ok bodyData) resp).1.countP isPrintln = 0) ∧
    ((createDatasetRun c (.error em) resp).1.countP isPrintln = 0) ∧
    ((uploadCSVRun c csv resp).1.countP isPrintln = 0) ∧
    ((uploadExperimentRun c (.ok bodyData) resp).1.countP isPrintln = 0) ∧
    ((uploadExperimentRun c (.error em) resp).1.countP isPrintln = 0) ∧
    ((readDatasetRun c id resp).1.countP isPrintln = 0) ∧
    ((downloadDatasetCsvRun c id resp).1.countP isPrintln = 1) ∧
    ((getExamplesRun c datasetId o resp).1.countP isPrintln = 0) ∧
    ((createExampleRun c (.ok bodyData) resp).1.countP isPrintln = 1) ∧
    ((createExampleRun c (.error em) resp).1.countP isPrintln = 0) ∧
    ((createExamplesRun c (.ok bodyData) resp).1.countP isPrintln = 0) ∧
    ((createExamplesRun c (.error em) resp).1.countP isPrintln = 0) ∧
    ((getExamplesWithRunsRun c dsId resp).1.countP isPrintln = 0) ∧
    ((createComparativeExperimentRun c (.ok bodyData) resp).1.countP isPrintln = 0) ∧
    ((createComparativeExperimentRun c (.error em) resp).1.countP isPrintln = 0) ∧
    ((readComparitiveExperimentRun c dsId expId resp).1.countP isPrintln = 0) ∧
    ((queryRunsRun c bodyData resp).1.countP isPrintln = 0) ∧
    ((createFeedbackRun c (.ok bodyData) resp).1.countP isPrintln = 0) ∧
    ((createFeedbackRun c (.error em) resp).1.countP isPrintln = 0) ∧
    ((createTracerSessionRun c (.ok bodyData) resp).1.countP isPrintln = 0) ∧
    ((createTracerSessionRun c (.error em) resp).1.countP isPrintln = 0) ∧
    ((updateTracerSessionRun c sid (.ok bodyData) resp).1.countP isPrintln = 0) ∧
    ((updateTracerSessionRun c sid (.error em) resp).1.countP isPrintln = 0) ∧
    ((createDatasetRun c (.ok bodyData) resp).1.countP isHttp = 1) ∧
    ((createDatasetRun c (.error em) resp).1.countP isHttp = 0) ∧
    ((uploadCSVRun c csv resp).1.countP isHttp = 1) ∧
    ((uploadExperimentRun c (.ok bodyData) resp).1.countP isHttp = 1) ∧
    ((uploadExperimentRun c (.error em) resp).1.countP isHttp = 0) ∧
    ((readDatasetRun c id resp).1.countP isHttp = 1) ∧
    ((downloadDatasetCsvRun c id resp).1.countP isHttp = 1) ∧
    ((getExamplesRun c datasetId o resp).1.countP isHttp = 1) ∧
    ((createExampleRun c (.ok bodyData) resp).1.countP isHttp = 1) ∧
    ((createExampleRun c (.error em) resp).1.countP isHttp = 0) ∧
    ((createExamplesRun c (.ok bodyData) resp).1.countP isHttp = 1) ∧
    ((createExamplesRun c (.error em) resp).1.countP isHttp = 0) ∧
    ((getExamplesWithRunsRun c dsId resp).1.countP isHttp = 1) ∧
    ((createComparativeExperimentRun c (.ok bodyData) resp).1.countP isHttp = 1) ∧
    ((createComparativeExperimentRun c (.error em) resp).1.countP isHttp = 0) ∧
    ((readComparitiveExperimentRun c dsId expId resp).1.countP isHttp = 1) ∧
    ((queryRunsRun c bodyData resp).1.countP isHttp = 1) ∧
    ((createFeedbackRun c (.ok bodyData) resp).1.countP isHttp = 1) ∧
    ((createFeedbackRun c (.error em) resp).1.countP isHttp = 0) ∧
    ((createTracerSessionRun c (.ok bodyData) resp).1.countP isHttp = 1) ∧
    ((createTracerSessionRun c (.error em) resp).1.countP isHttp = 0) ∧
    ((updateTracerSessionRun c sid (.ok bodyData) resp).1.countP isHttp = 1) ∧
    ((updateTracerSessionRun c sid (.error em) resp).1.countP isHttp = 0) := by
  and_intros <;> rfl

lemma countP_key_strFieldOmitEmpty_ne (key name v : String)
    (h : (name == key) = false) :
    (strFieldOmitEmpty name v).countP (fun q => q.1 == key) = 0 := by
  unfold strFieldOmitEmpty
  split <;> simp [List.countP_cons, h]

lemma countP_key_anyFieldOmitEmpty_ne (key name : String) (v : Option Jval)
    (h : (name == key) = false) :
    (anyFieldOmitEmpty name v).countP (fun q => q.1 == key) = 0 := by
  cases v <;> simp [anyFieldOmitEmpty, List.countP_cons, h]

lemma countP_key_mapFieldOmitEmpty_ne (key name : String)
    (m : Option (List (String × Jval))) (h : (name == key) = false) :
    (mapFieldOmitEmpty name m).countP (fun q => q.1 == key) = 0 := by
  cases m with
  | none => rfl
  | some l => cases l <;> simp [mapFieldOmitEmpty, List.countP_cons, h]

lemma countP_key_strFieldOmitEmpty_self (key v : String) :
    (strFieldOmitEmpty key v).countP (fun q => q.1 == key) =
      if v = "" then 0 else 1 := by
  unfold strFieldOmitEmpty
  split <;> simp [List.countP_cons]

/-- C1 counterexample: `RunPayload.StartTime` is a Go `time.Time`, so its
wire value is Go's default RFC 3339 rendering with a `Z` timezone suffix,
which does not match the fixed `YYYY-MM-DDTHH:MM:SS` format. -/
theorem C1_counterexample :
    (runPayloadToJson ⟨"r1", "n", "llm", ⟨2024, 1, 2, 3, 4, 5, 0⟩, none, "", "",
        "", none, none, ⟨1, 1, 1, 0, 0, 0, 0⟩, none, none, "", ""⟩).lookup
      "start_time" = some (.jstr "2024-01-02T03:04:05Z") ∧
    matchesLangsmithFormat "2024-01-02T03:04:05Z" = false := by
  exact ⟨rfl, rfl⟩

/-- C1 (amended): timestamp fields typed `LangsmithTime` (Experiment
results and scores, Feedback, sessions, comparative experiments) are
encoded in the fixed `YYYY-MM-DDTHH:MM:SS` wire format, on which the
encoder and the decoder agree; but the `time.Time`-typed timestamp fields
of the Run payloads and of `Dataset` are encoded in Go's default RFC 3339
rendering with a timezone suffix, which never matches the fixed format. -/
theorem C1_timestamp_formats (t : GoTime) (p : RunPayload) (ds : Dataset)
    (f : Feedback) (ts : TracerSessionRequest) (h : ValidGoTime t) :
    matchesLangsmithFormat (formatLangsmith t) = true ∧
    parseLangsmith (formatLangsmith t) = .ok (truncSec t) ∧
    (feedbackToJson f).lookup "created_at" =
      some (.jstr (formatLangsmith f.CreatedAt)) ∧
    (tracerSessionRequestToJson ts).lookup "start_time" =
      some (.jstr (formatLangsmith ts.StartTime)) ∧
    (runPayloadToJson p).lookup "start_time" =
      some (.jstr (goTimeRFC3339 p.StartTime)) ∧
    (datasetToJson ds).lookup "created_at" =
      some (.jstr (goTimeRFC3339 ds.CreatedAt)) ∧
    (t.nanos = 0 → matchesLangsmithFormat (goTimeRFC3339 t) = false) := by
  obtain ⟨hy, hm1, hm2, hd1, hd2, hh, hmi, hs⟩ := h
  have hdle := daysIn_le t.year t.month
  refine ⟨?_, parseLangsmith_format t ⟨hy, hm1, hm2, hd1, hd2, hh, hmi, hs⟩,
    ?_, ?_, rfl, ?_, ?_⟩
  · rw [formatLangsmith, formatChars_eq t ⟨hy, hm1, hm2, hd1, hd2, hh, hmi, hs⟩]
    simp [matchesLangsmithFormat,
      isDigitChar_digitChar (t.year / 1000) (by omega),
      isDigitChar_digitChar (t.year / 100 % 10) (by omega),
      isDigitChar_digitChar (t.year / 10 % 10) (by omega),
      isDigitChar_digitChar (t.year % 10) (by omega),
      isDigitChar_digitChar (t.month / 10) (by omega),
      isDigitChar_digitChar (t.month % 10) (by omega),
      isDigitChar_digitChar (t.day / 10) (by omega),
      isDigitChar_digitChar (t.day % 10) (by omega),
      isDigitChar_digitChar (t.hour / 10) (by omega),
      isDigitChar_digitChar (t.hour % 10) (by omega),
      isDigitChar_digitChar (t.minute / 10) (by omega),
      isDigitChar_digitChar (t.minute % 10) (by omega),
      isDigitChar_digitChar (t.second / 10) (by omega),
      isDigitChar_digitChar (t.second % 10) (by omega)]
  · by_cases hid : f.ID = "" <;>
      simp [feedbackToJson, strFieldOmitEmpty, hid, List.lookup]
  · by_cases hid : ts.ID = "" <;>
      simp [tracerSessionRequestToJson, strFieldOmitEmpty, hid, List.lookup]
  · cases hD : ds.Description <;>
      simp [datasetToJson, anyFieldOmitEmpty, strField, hD, List.lookup]
  · intro hn
    rw [goTimeRFC3339, hn, formatChars_eq t ⟨hy, hm1, hm2, hd1, hd2, hh, hmi, hs⟩]
    simp [matchesLangsmithFormat, fracChars]

/-- C1 witness: the format agreement evaluated at a concrete instant, for
concrete records of each entity. -/
theorem C1_timestamp_formats_witness :
    ValidGoTime ⟨2025, 12, 31, 23, 59, 59, 0⟩ ∧
    matchesLangsmithFormat (formatLangsmith ⟨2025, 12, 31, 23, 59, 59, 0⟩) = true ∧
    matchesLangsmithFormat (goTimeRFC3339 ⟨2025, 12, 31, 23, 59, 59, 0⟩) = false := by
  refine ⟨by decide, ?_, ?_⟩
  · exact (C1_timestamp_formats ⟨2025, 12, 31, 23, 59, 59, 0⟩
      ⟨"", "", "", ⟨1, 1, 1, 0, 0, 0, 0⟩, none, "", "", "", none, none,
        ⟨1, 1, 1, 0, 0, 0, 0⟩, none, none, "", ""⟩
      ⟨"", "", none, ⟨1, 1, 1, 0, 0, 0, 0⟩, none, none, none, none, none, "",
        0, 0, ⟨1, 1, 1, 0, 0, 0, 0⟩, none⟩
      ⟨"", ⟨1, 1, 1, 0, 0, 0, 0⟩, ⟨1, 1, 1, 0, 0, 0, 0⟩, "", none, none, "",
        none, "", "", "", "", "", none, none⟩
      ⟨"", ⟨1, 1, 1, 0, 0, 0, 0⟩, ⟨1, 1, 1, 0, 0, 0, 0⟩, none, "", "", "", "", ""⟩
      (by decide)).1
  · exact (C1_timestamp_formats ⟨2025, 12, 31, 23, 59, 59, 0⟩
      ⟨"", "", "", ⟨1, 1, 1, 0, 0, 0, 0⟩, none, "", "", "", none, none,
        ⟨1, 1, 1, 0, 0, 0, 0⟩, none, none, "", ""⟩
      ⟨"", "", none, ⟨1, 1, 1, 0, 0, 0, 0⟩, none, none, none, none, none, "",
        0, 0, ⟨1, 1, 1, 0, 0, 0, 0⟩, none⟩
      ⟨"", ⟨1, 1, 1, 0, 0, 0, 0⟩, ⟨1, 1, 1, 0, 0, 0, 0⟩, "", none, none, "",
        none, "", "", "", "", "", none, none⟩
      ⟨"", ⟨1, 1, 1, 0, 0, 0, 0⟩, ⟨1, 1, 1, 0, 0, 0, 0⟩, none, "", "", "", "", ""⟩
      (by decide)).2.2.2.2.2.2 rfl

/-- C5 counterexample: the zero-valued `TracerSessionRequest` encodes to a
JSON object that still contains its two optional timestamp fields, each as
the zero time `0001-01-01T00:00:00` — `omitempty` never fires on the
struct-typed `LangsmithTime` fields. -/
theorem C5_counterexample :
    tracerSessionRequestToJson
        ⟨"", ⟨1, 1, 1, 0, 0, 0, 0⟩, ⟨1, 1, 1, 0, 0, 0, 0⟩, none, "", "", "", "", ""⟩ =
      [("start_time", .jstr "0001-01-01T00:00:00"),
       ("end_time", .jstr "0001-01-01T00:00:00")] := rfl

/-- C5 (amended): optional fields of non-struct type (strings, maps,
slices, pointers, `any`) are omitted from the encoded JSON entirely when
empty, but `omitempty` has no effect on struct-typed fields, so the
optional `LangsmithTime` timestamp fields of `Feedback`,
`ExperimentScore` and `TracerSessionRequest` are always encoded — the
zero value appears as `0001-01-01T00:00:00` rather than being omitted. -/
theorem C5_omitempty_fields (f : Feedback) (sc : ExperimentScore)
    (ts : TracerSessionRequest) :
    (feedbackToJson f).lookup "modified_at" =
      some (.jstr (formatLangsmith f.ModifiedAt)) ∧
    (experimentScoreToJson sc).lookup "created_at" =
      some (.jstr (formatLangsmith sc.CreatedAt)) ∧
    (tracerSessionRequestToJson ts).lookup "end_time" =
      some (.jstr (formatLangsmith ts.EndTime)) ∧
    ((feedbackToJson f).countP (fun q => q.1 == "comment") =
      if f.Comment = "" then 0 else 1) ∧
    ((feedbackToJson f).countP (fun q => q.1 == "id") =
      if f.ID = "" then 0 else 1) := by
  refine ⟨?_, rfl, ?_, ?_, ?_⟩
  · by_cases hid : f.ID = "" <;>
      simp [feedbackToJson, strFieldOmitEmpty, hid, List.lookup]
  · by_cases hid : ts.ID = "" <;>
      simp [tracerSessionRequestToJson, strFieldOmitEmpty, hid, List.lookup]
  · simp [feedbackToJson, List.countP_append,
      countP_key_strFieldOmitEmpty_ne "comment" "id" f.ID (by decide),
      countP_key_anyFieldOmitEmpty_ne "comment" "score" f.Score (by decide),
      countP_key_anyFieldOmitEmpty_ne "comment" "value" f.Value (by decide),
      countP_key_anyFieldOmitEmpty_ne "comment" "correction" f.Correction (by decide),
      countP_key_strFieldOmitEmpty_ne "comment" "feedback_group_id"
        f.FeedbackGroupID (by decide),
      countP_key_strFieldOmitEmpty_ne "comment" "comparative_experiment_id"
        f.ComparativeExperimentID (by decide),
      countP_key_strFieldOmitEmpty_ne "comment" "run_id" f.RunID (by decide),
      countP_key_strFieldOmitEmpty_ne "comment" "session_id" f.SessionID (by decide),
      countP_key_strFieldOmitEmpty_ne "comment" "trace_id" f.TraceID (by decide),
      countP_key_anyFieldOmitEmpty_ne "comment" "feedback_source"
        (f.FeedbackSource.map feedbackSourceToJson) (by decide),
      countP_key_anyFieldOmitEmpty_ne "comment" "feedback_config"
        (f.FeedbackConfig.map feedbackConfigToJson) (by decide),
      countP_key_strFieldOmitEmpty_self "comment" f.Comment,
      List.countP_cons]
  · simp [feedbackToJson, List.countP_append,
      countP_key_strFieldOmitEmpty_ne "id" "comment" f.Comment (by decide),
      countP_key_anyFieldOmitEmpty_ne "id" "score" f.Score (by decide),
      countP_key_anyFieldOmitEmpty_ne "id" "value" f.Value (by decide),
      countP_key_anyFieldOmitEmpty_ne "id" "correction" f.Correction (by decide),
      countP_key_strFieldOmitEmpty_ne "id" "feedback_group_id"
        f.FeedbackGroupID (by decide),
      countP_key_strFieldOmitEmpty_ne "id" "comparative_experiment_id"
        f.ComparativeExperimentID (by decide),
      countP_key_strFieldOmitEmpty_ne "id" "run_id" f.RunID (by decide),
      countP_key_strFieldOmitEmpty_ne "id" "session_id" f.SessionID (by decide),
      countP_key_strFieldOmitEmpty_ne "id" "trace_id" f.TraceID (by decide),
      countP_key_anyFieldOmitEmpty_ne "id" "feedback_source"
        (f.FeedbackSource.map feedbackSourceToJson) (by decide),
      countP_key_anyFieldOmitEmpty_ne "id" "feedback_config"
        (f.FeedbackConfig.map feedbackConfigToJson) (by decide),
      countP_key_strFieldOmitEmpty_self "id" f.ID,
      List.countP_cons]

/-- C5 witness: the omit-empty behaviour evaluated on a concrete
`Feedback` record with an empty comment and a non-empty id. -/
theorem C5_omitempty_fields_witness :
    (feedbackToJson ⟨"f1", ⟨1, 1, 1, 0, 0, 0, 0⟩, ⟨1, 1, 1, 0, 0, 0, 0⟩, "k",
        none, none, "", none, "", "", "", "", "", none, none⟩).countP
      (fun q => q.1 == "comment") = 0 ∧
    (feedbackToJson ⟨"f1", ⟨1, 1, 1, 0, 0, 0, 0⟩, ⟨1, 1, 1, 0, 0, 0, 0⟩, "k",
        none, none, "", none, "", "", "", "", "", none, none⟩).countP
      (fun q => q.1 == "id") = 1 := by
  constructor
  · exact ((C5_omitempty_fields ⟨"f1", ⟨1, 1, 1, 0, 0, 0, 0⟩, ⟨1, 1, 1, 0, 0, 0, 0⟩,
      "k", none, none, "", none, "", "", "", "", "", none, none⟩
      ⟨⟨1, 1, 1, 0, 0, 0, 0⟩, ⟨1, 1, 1, 0, 0, 0, 0⟩, "", 0, 0, "", none, "", "",
        "", none, none, none⟩
      ⟨"", ⟨1, 1, 1, 0, 0, 0, 0⟩, ⟨1, 1, 1, 0, 0, 0, 0⟩, none, "", "", "", "", ""⟩).2.2.2.1).trans
      (by rfl)
  · exact ((C5_omitempty_fields ⟨"f1", ⟨1, 1, 1, 0, 0, 0, 0⟩, ⟨1, 1, 1, 0, 0, 0, 0⟩,
      "k", none, none, "", none, "", "", "", "", "", none, none⟩
      ⟨⟨1, 1, 1, 0, 0, 0, 0⟩, ⟨1, 1, 1, 0, 0, 0, 0⟩, "", 0, 0, "", none, "", "",
        "", none, none, none⟩
      ⟨"", ⟨1, 1, 1, 0, 0, 0, 0⟩, ⟨1, 1, 1, 0, 0, 0, 0⟩, none, "", "", "", "", ""⟩).2.2.2.2).trans
      (by rfl)

end Langsmithgo
